import Mathlib

/-!
Shallow embedding of the scraper backend (Flask app `src/app.py`, the scrapers in
`src/scrapers/` and the utilities in `src/utils/`).

Pure data flow is translated directly from the Python source.  External effects
(HTTP transport, the browser, the filesystem, SMTP) are modelled as explicit
outcome parameters supplied to the embedded functions: each point in the source
where the outside world can answer or raise becomes a constructor of an outcome
type, and the embedded function is total on those outcomes, mirroring the
try/except structure of the source.

The `multiprocessing.Pool` in `run_scraper_job` forks the interpreter: each
worker receives a copy of the module-level `jobs` dict, so the
`jobs[job_id]['progress']['current'] += 1` statements in `worker_process`
mutate the child process's copy and are invisible to the parent.  The embedding
makes this explicit: `worker_process` reports the increments it applied to its
own copy in `WorkerOut.increments`, and `run_scraper_job` (the parent) never
folds them into the job record, exactly as the source behaves at runtime.
-/

namespace ScraperBackend

/-- The `progress` sub-dictionary of a job record (`app.py`). -/
structure Progress where
  current : Nat
  total : Nat
deriving DecidableEq, Repr

/-- A `jobs[job_id]` record (`app.py` line 236): `status`, `progress`, `message`.
The `created_at` timestamp is real-time data outside the embedding and is not
inspected by any claim. -/
structure Job where
  status : String
  progress : Progress
  message : String
deriving DecidableEq, Repr

/-- One result dictionary returned by a source adapter (`scrape_hottoner` and
`SeleniumScraper.scrape_inkstation`): keys OEM_CODE, Title, Price, Website,
Status, URL. -/
structure ScrapeRecord where
  oem_code : String
  title : String
  price : String
  website : String
  status : String
  url : String
deriving DecidableEq, Repr

/-! ## HotToner adapter (`src/scrapers/hottoner_scraper.py`) -/

/-- Outcome of the BeautifulSoup section of `scrape_hottoner` (lines 47-151):
the parse machinery raised, or no `product-info` div and no usable
`product-list` container was found (two distinct return sites, lines 94-103 and
108-116), or a title/price/status triple was extracted. -/
inductive ParseOutcome where
  | parseFault
  | noProductList
  | noProductItem
  | found (title price status : String)
deriving DecidableEq, Repr

/-- Outcome of the `requests.get` call in `scrape_hottoner` (line 35): the
transport raised (unreachable host or timeout), or a response arrived with a
status code and a body that parses as described by `ParseOutcome`. -/
inductive HttpOutcome where
  | unreachable
  | response (statusCode : Nat) (parsed : ParseOutcome)
deriving DecidableEq, Repr

/-- The search URL built by `scrape_hottoner` (line 25). -/
def hottoner_url (oem_code : String) : String :=
  "https://www.hottoner.com.au/index.php?route=product/search&filter_cartridge=" ++ oem_code

/-- `scrape_hottoner` (hottoner_scraper.py lines 15-162).  Everything after the
URL f-string sits inside try/except, so the function always returns a record:
a non-200 status or a missing product container returns the Not Found record,
any raised fault is converted by the except-clause into the Error record, and
the found case returns the extracted triple after `random_delay`. -/
def scrape_hottoner (oem_code : String) (out : HttpOutcome) : ScrapeRecord :=
  let url := hottoner_url oem_code
  match out with
  | .unreachable => ⟨oem_code, "Error", "N/A", "HotToner", "Error", url⟩
  | .response statusCode parsed =>
    if statusCode ≠ 200 then
      ⟨oem_code, "Not Found", "N/A", "HotToner", "Not Available", url⟩
    else
      match parsed with
      | .parseFault => ⟨oem_code, "Error", "N/A", "HotToner", "Error", url⟩
      | .noProductList => ⟨oem_code, "Not Found", "N/A", "HotToner", "Not Available", url⟩
      | .noProductItem => ⟨oem_code, "Not Found", "N/A", "HotToner", "Not Available", url⟩
      | .found title price status => ⟨oem_code, title, price, "HotToner", status, url⟩

/-- An outcome on which `scrape_hottoner` cannot deliver a real product record:
the transport raised, the status was non-200, or the parse machinery raised. -/
def isFaultyOutcome : HttpOutcome → Bool
  | .unreachable => true
  | .response _ .parseFault => true
  | .response statusCode _ => statusCode != 200

/-! ## Selenium adapter (`src/scrapers/selenium_scraper.py`) -/

/-- The search URL built by `SeleniumScraper.scrape_inkstation` (line 118). -/
def inkstation_url (oem_code : String) : String :=
  "https://www.inkstation.com.au/search?keywords=" ++ oem_code

/-- Mutable state of a `SeleniumScraper` instance (`__init__`, lines 19-30):
whether a driver handle exists, the `headless` flag, the cached
`cloudflare_solved` flag and the `request_count` counter. -/
structure SeleniumScraper where
  driver : Bool
  headless : Bool
  cloudflare_solved : Bool
  request_count : Nat
deriving DecidableEq, Repr

/-- A fresh instance, `SeleniumScraper(headless)`. -/
def SeleniumScraper.mk0 (headless : Bool) : SeleniumScraper :=
  ⟨false, headless, false, 0⟩

/-- Outcome of the inner parsing try-block of `scrape_inkstation`
(lines 149-284): the parse machinery raised, or no product container matched
any selector, or a product was extracted. -/
inductive InkParse where
  | parseFault
  | notFound
  | found (title price status : String)
deriving DecidableEq, Repr

/-- Environment for one `scrape_inkstation` call: whether `setup_driver` raises
(consulted only when no driver exists yet), whether `driver.get` raises, and
how the rendered page parses. -/
structure LookupEnv where
  setupFaults : Bool
  navFaults : Bool
  parsed : InkParse
deriving DecidableEq, Repr

/-- Result of one `scrape_inkstation` call: the updated instance state, the
returned record, and whether this call entered the challenge-wait path
(`wait_for_cloudflare`). -/
structure LookupResult where
  scraper : SeleniumScraper
  record : ScrapeRecord
  challengeWaited : Bool
deriving DecidableEq, Repr

/-- `SeleniumScraper.scrape_inkstation` (lines 108-295).  The whole body sits
inside try/except returning an Error record on any raise.  On a successful
navigation, `request_count` is incremented, then the `cloudflare_solved` flag
is consulted: when false the adapter runs `wait_for_cloudflare` and sets the
flag unconditionally afterwards (line 131, whether the wait cleared or timed
out); when true it only sleeps the normal render delay.  The parse section can
still raise after the flag update, which the inner except turns into an Error
record. -/
def SeleniumScraper.scrape_inkstation (s : SeleniumScraper) (oem_code : String)
    (env : LookupEnv) : LookupResult :=
  let url := inkstation_url oem_code
  if s.driver = false && env.setupFaults then
    ⟨s, ⟨oem_code, "Error", "N/A", "InkStation", "Error", url⟩, false⟩
  else
    let s1 : SeleniumScraper :=
      { s with driver := true, request_count := s.request_count + 1 }
    if env.navFaults then
      ⟨s1, ⟨oem_code, "Error", "N/A", "InkStation", "Error", url⟩, false⟩
    else
      let waited := !s1.cloudflare_solved
      let s2 : SeleniumScraper := { s1 with cloudflare_solved := true }
      match env.parsed with
      | .parseFault =>
        ⟨s2, ⟨oem_code, "Error", "N/A", "InkStation", "Error", url⟩, waited⟩
      | .notFound =>
        ⟨s2, ⟨oem_code, "Not Found", "N/A", "InkStation", "Not Available", url⟩, waited⟩
      | .found title price status =>
        ⟨s2, ⟨oem_code, title, price, "InkStation", status, url⟩, waited⟩

/-- Run a sequence of lookups on one adapter instance, returning the final
state and the per-call (record, challengeWaited) pairs in call order. -/
def runLookups (s : SeleniumScraper) :
    List (String × LookupEnv) → SeleniumScraper × List (ScrapeRecord × Bool)
  | [] => (s, [])
  | (code, env) :: rest =>
    let r := s.scrape_inkstation code env
    let rec' := runLookups r.scraper rest
    (rec'.1, (r.record, r.challengeWaited) :: rec'.2)

/-! ## Worker (`worker_process`, `src/app.py` lines 36-84) -/

/-- One output row built by `worker_process`: the dict with keys OEM_CODE,
"Ink Station" (present only when selenium is enabled) and "Hot Tonner". -/
structure Row where
  oem_code : String
  inkstation : Option String
  hottoner : String
deriving DecidableEq, Repr

/-- Per-code environment: the selenium lookup environment and the HotToner
HTTP outcome for that code. -/
structure CodeEnv where
  ink : LookupEnv
  hot : HttpOutcome
deriving DecidableEq, Repr

/-- `SeleniumScraper.close` (selenium_scraper.py lines 297-301): quits the
browser when a driver exists and clears the handle. -/
def SeleniumScraper.close (s : SeleniumScraper) : SeleniumScraper :=
  if s.driver then { s with driver := false } else s

/-- Output of `worker_process`: the chunk's rows or the unexpected fault that
aborted the loop; the number of `progress.current` increments the worker
applied to ITS OWN copy of the `jobs` dict (the Pool child's memory, not the
parent's); how many times `selenium_scraper.close()` ran; and the adapter
instance after the finally-block (`none` when no adapter was created). -/
structure WorkerOut where
  result : Except String (List Row)
  increments : Nat
  closeCalls : Nat
  finalScraper : Option SeleniumScraper
deriving Repr

/-- The per-code loop body of `worker_process` (lines 50-72): the row starts as
{OEM_CODE: code}; with selenium enabled the "Ink Station" cell is the Price
field of the record `scrape_inkstation` returns (the adapter is total, so the
worker's defensive except branch is unreachable), and the "Hot Tonner" cell is
the Price field of the `scrape_hottoner` record. -/
def workerRow (use_selenium : Bool) (s : SeleniumScraper) (code : String)
    (env : CodeEnv) : Row × SeleniumScraper :=
  if use_selenium then
    let r := s.scrape_inkstation code env.ink
    (⟨code, some r.record.price, (scrape_hottoner code env.hot).price⟩, r.scraper)
  else
    (⟨code, none, (scrape_hottoner code env.hot).price⟩, s)

/-- The for-loop of `worker_process`.  `abort` is the iteration index at which
an unexpected fault (outside the per-adapter try/except blocks) aborts the
loop; `none` models a run in which no such fault occurs.  Returns the rows (or
the fault) together with the number of completed progress increments. -/
def workerLoop (use_selenium : Bool) (envOf : String → CodeEnv) :
    SeleniumScraper → List String → Option Nat →
      Except String (List Row) × Nat × SeleniumScraper
  | s, [], _ => (.ok [], 0, s)
  | s, code :: rest, abort =>
    match abort with
    | some 0 => (.error "worker fault", 0, s)
    | _ =>
      let step := workerRow use_selenium s code (envOf code)
      let tail := workerLoop use_selenium envOf step.2 rest (abort.map fun n => n - 1)
      (tail.1.map fun rows => step.1 :: rows, tail.2.1 + 1, tail.2.2)

/-- `worker_process` (app.py lines 36-84): creates a `SeleniumScraper` when
`use_selenium` is set, builds one row per code in its chunk, and increments the
progress counter of its own process-copied `jobs` dict once per code.  The
try/finally guarantees `selenium_scraper.close()` runs exactly once whenever a
scraper was created, whether the loop finished or a fault aborted it. -/
def worker_process (use_selenium : Bool) (envOf : String → CodeEnv)
    (chunk : List String) (abort : Option Nat) : WorkerOut :=
  let body := workerLoop use_selenium envOf (SeleniumScraper.mk0 false) chunk abort
  { result := body.1
    increments := body.2.1
    closeCalls := if use_selenium then 1 else 0
    finalScraper := if use_selenium then some body.2.2.close else none }

/-- The rows of a (worker) run that completed without an unexpected fault;
pure companion of `workerLoop` with `abort = none`. -/
def workerRowsFrom (use_selenium : Bool) (envOf : String → CodeEnv) :
    SeleniumScraper → List String → List Row
  | _, [] => []
  | s, code :: rest =>
    let step := workerRow use_selenium s code (envOf code)
    step.1 :: workerRowsFrom use_selenium envOf step.2 rest

/-! ## Input handling (`src/utils/excel_handler.py`, `app.py`) -/

/-- First-occurrence deduplication, the behaviour of pandas `unique()`:
the first occurrence of each value is kept, in encounter order,
case preserved. -/
def dedupFirst (l : List String) : List String :=
  l.foldl (fun acc x => if acc.contains x then acc else acc ++ [x]) []

/-- `read_oem_codes` (excel_handler.py lines 8-37): the OEM_CODE column is a
list of cells, `none` standing for an empty (NaN) cell; `dropna()` keeps the
`some` cells and `unique()` keeps first occurrences.  File-existence and
missing-column faults raise before this point and are modelled by
`RunEnv.readResult = .error`. -/
def read_oem_codes (cells : List (Option String)) : List String :=
  dedupFirst (cells.filterMap id)

/-! ## Orchestrator (`run_scraper_job`, `src/app.py` lines 87-141) -/

/-- The hardcoded pool size (app.py line 106). -/
def num_workers : Nat := 4

/-- The number of source adapters a job queries per code: InkStation (selenium)
and HotToner (`worker_process` is always dispatched with `use_selenium=True`,
app.py line 117). -/
def num_adapters : Nat := 2

/-- The chunking loop of `run_scraper_job` (lines 106-115): floor-division
chunk size, the final chunk absorbing the remainder.  The Python slice
`oem_codes[start:end]` is `take (end - start) (drop start)`. -/
def chunks (oem_codes : List String) : List (List String) :=
  let chunk_size := oem_codes.length / num_workers
  (List.range num_workers).map fun i =>
    let start_idx := i * chunk_size
    let end_idx :=
      if i = num_workers - 1 then oem_codes.length else start_idx + chunk_size
    (oem_codes.drop start_idx).take (end_idx - start_idx)

/-- Environment for one `run_scraper_job` execution: the outcome of
`read_oem_codes` (exception message, or the code list), the per-code adapter
environments, the per-worker abort points (padded with `none`), and whether
`df.to_excel` or `send_email_with_attachment` raise, with their messages. -/
structure RunEnv where
  readResult : Except String (List String)
  envOf : String → CodeEnv
  aborts : List (Option Nat)
  writeFault : Option String
  emailFault : Option String

/-- An observable event of a job run: a mutation of `jobs[job_id]` (snapshot
after the mutation), the Excel write, or the email send. -/
inductive Ev where
  | setJob (j : Job)
  | writeOutput (rows : List Row)
  | sendEmail
deriving DecidableEq, Repr

/-- Result of a `run_scraper_job` execution: the final job record, the trace of
observable events in program order, and the rows written to the output file
(`none` when the write never happened). -/
structure RunOut where
  job : Job
  trace : List Ev
  written : Option (List Row)
deriving DecidableEq, Repr

/-- Did an `Except` computation succeed? -/
def exceptOk {ε α : Type} : Except ε α → Bool
  | .ok _ => true
  | .error _ => false

/-- The pool dispatch of `run_scraper_job` (lines 117-124): worker `i` gets
chunk `i` and runs `worker_process` with `use_selenium=True`. -/
def workerOuts (envOf : String → CodeEnv) (aborts : List (Option Nat))
    (oem_codes : List String) : List WorkerOut :=
  (List.range num_workers).map fun i =>
    worker_process true envOf ((chunks oem_codes).getD i []) (aborts.getD i none)

/-- The first fault a `run_scraper_job` execution hits, in stage order:
read fault, then a worker fault re-raised by `pool.map`, then the Excel write
fault, then the email fault.  `none` means the run completes cleanly. -/
def firstFault (env : RunEnv) : Option String :=
  match env.readResult with
  | .error msg => some msg
  | .ok oem_codes =>
    if (workerOuts env.envOf env.aborts oem_codes).any (fun w => !(exceptOk w.result)) then
      some "worker fault"
    else
      match env.writeFault with
      | some msg => some msg
      | none => env.emailFault

/-- `run_scraper_job` (app.py lines 87-141), run in the parent process.  The
body is one try/except: any stage fault jumps to the handler, which sets
`status = 'error'` and `message = 'Error: ' + str(e)`.  The stages in order:
mark running, read codes, set progress {0, total}, dispatch the pool (worker
increments land in the children's copies of `jobs` and never reach this
record), write the Excel file, set `status = 'completed'` and the
"Sending email..." message, send the email, set the final message. -/
def run_scraper_job (env : RunEnv) : RunOut :=
  let j0 : Job := { status := "pending", progress := ⟨0, 0⟩, message := "Job queued" }
  let j1 := { j0 with status := "running" }
  let j2 := { j1 with message := "Reading OEM codes from file..." }
  let tr0 := [Ev.setJob j1, Ev.setJob j2]
  match env.readResult with
  | .error msg =>
    let jf := { j2 with status := "error", message := "Error: " ++ msg }
    ⟨jf, tr0 ++ [Ev.setJob jf], none⟩
  | .ok oem_codes =>
    let total_codes := oem_codes.length
    let j3 := { j2 with progress := ⟨0, total_codes⟩ }
    let j4 := { j3 with
      message := "Found " ++ toString total_codes ++ " OEM codes. Starting parallel scraping..." }
    let tr1 := tr0 ++ [Ev.setJob j3, Ev.setJob j4]
    let outs := workerOuts env.envOf env.aborts oem_codes
    if outs.any (fun w => !(exceptOk w.result)) then
      let jf := { j4 with status := "error", message := "Error: worker fault" }
      ⟨jf, tr1 ++ [Ev.setJob jf], none⟩
    else
      match env.writeFault with
      | some msg =>
        let jf := { j4 with status := "error", message := "Error: " ++ msg }
        ⟨jf, tr1 ++ [Ev.setJob jf], none⟩
      | none =>
        let all_results := (outs.map fun w => (w.result.toOption.getD [])).flatten
        let tr2 := tr1 ++ [Ev.writeOutput all_results]
        let j5 := { j4 with status := "completed" }
        let j6 := { j5 with message := "Scraping completed! Sending email..." }
        let tr3 := tr2 ++ [Ev.setJob j5, Ev.setJob j6, Ev.sendEmail]
        match env.emailFault with
        | some msg =>
          let jf := { j6 with status := "error", message := "Error: " ++ msg }
          ⟨jf, tr3 ++ [Ev.setJob jf], some all_results⟩
        | none =>
          let j7 := { j6 with message := "Email sent successfully!" }
          ⟨j7, tr3 ++ [Ev.setJob j7], some all_results⟩

/-- Is an event the registry mutation that sets status "completed"? -/
def isCompletedSet : Ev → Bool
  | .setJob j => j.status == "completed"
  | _ => false

/-- A concrete benign per-code environment (both sites answer normally),
used by concrete executions in the theorems below. -/
def defaultCodeEnv : CodeEnv :=
  ⟨⟨false, false, .found "Toner X" "$10.00" "Available"⟩,
    .response 200 (.found "Toner X" "$12.00" "In Stock")⟩

/-- A run environment in which everything succeeds except the email send. -/
def emailFaultEnv : RunEnv :=
  { readResult := .ok ["A1"]
    envOf := fun _ => defaultCodeEnv
    aborts := []
    writeFault := none
    emailFault := some "SMTP connection refused" }

/-- A fully successful run environment over the given code cells. -/
def okRunEnv (cells : List (Option String)) : RunEnv :=
  { readResult := .ok (read_oem_codes cells)
    envOf := fun _ => defaultCodeEnv
    aborts := []
    writeFault := none
    emailFault := none }

/-! ## Submission endpoint (`start_scrape`, `src/app.py` lines 203-257) -/

/-- The pieces of an upload request the validation logic inspects: whether
`'file' in request.files`, the optional `email` form field, and the uploaded
filename. -/
structure UploadRequest where
  hasFile : Bool
  email : Option String
  filename : String
deriving DecidableEq, Repr

/-- `ALLOWED_EXTENSIONS` (app.py line 27). -/
def ALLOWED_EXTENSIONS : List String := ["xlsx", "xls"]

/-- `filename.rsplit('.', 1)[1]`: the part after the last dot. -/
def extAfterDot (filename : String) : String :=
  String.mk ((filename.toList.reverse.takeWhile fun c => c != '.').reverse)

/-- `.lower()` on an ASCII extension. -/
def lowerStr (s : String) : String :=
  String.mk (s.toList.map Char.toLower)

/-- `allowed_file` (app.py lines 32-33). -/
def allowed_file (filename : String) : Bool :=
  filename.toList.contains '.' &&
    ALLOWED_EXTENSIONS.contains (lowerStr (extAfterDot filename))

/-- Response of the submission endpoint: the HTTP status and the job registry
after the request. -/
structure SubmitResult where
  httpStatus : Nat
  jobs : List (String × Job)
deriving DecidableEq, Repr

/-- `start_scrape` (app.py lines 203-257): the four validation rejections (no
file part, falsy email, empty filename, disallowed extension) return 400
before the job record is inserted; a valid request appends the fresh pending
job under `job_id` and returns 200. -/
def start_scrape (jobs : List (String × Job)) (req : UploadRequest)
    (job_id : String) : SubmitResult :=
  if req.hasFile = false then ⟨400, jobs⟩
  else if req.email.getD "" = "" then ⟨400, jobs⟩
  else if req.filename = "" then ⟨400, jobs⟩
  else if allowed_file req.filename = false then ⟨400, jobs⟩
  else
    ⟨200, jobs ++
      [(job_id, { status := "pending", progress := ⟨0, 0⟩, message := "Job queued" })]⟩

end ScraperBackend

namespace ScraperBackend

/-! ## Helper lemmas -/

theorem slice_decomp {α : Type} (l : List α) (s n : Nat) :
    (l.drop s).take n ++ l.drop (s + n) = l.drop s := by
  have h : l.drop (s + n) = (l.drop s).drop n := by rw [List.drop_drop]
  rw [h, List.take_append_drop]

theorem chunks_flatten_eq (l : List String) : (chunks l).flatten = l := by
  have hmul : l.length / 4 * 4 ≤ l.length := Nat.div_mul_le_self _ _
  unfold chunks num_workers
  rw [show List.range 4 = [0, 1, 2, 3] from rfl]
  simp only [List.map_cons, List.map_nil, List.flatten_cons, List.flatten_nil,
    List.append_nil]
  norm_num
  set cs := l.length / 4 with hcs
  have e4 : (l.drop (3 * cs)).take (l.length - 3 * cs) = l.drop (3 * cs) := by
    rw [← List.length_drop, List.take_length]
  have e3 : (l.drop (2 * cs)).take cs ++ l.drop (3 * cs) = l.drop (2 * cs) := by
    have h32 : (3 : Nat) * cs = 2 * cs + cs := by ring
    rw [h32, slice_decomp]
  have e2 : (l.drop cs).take cs ++ l.drop (2 * cs) = l.drop cs := by
    have h21 : (2 : Nat) * cs = cs + cs := by ring
    rw [h21, slice_decomp]
  have e1 : l.take cs ++ l.drop cs = l := List.take_append_drop cs l
  calc l.take cs ++ ((l.drop cs).take cs ++ ((l.drop (2 * cs)).take cs ++
        (l.drop (3 * cs)).take (l.length - 3 * cs)))
      = l.take cs ++ ((l.drop cs).take cs ++ ((l.drop (2 * cs)).take cs ++ l.drop (3 * cs))) := by
        rw [e4]
    _ = l.take cs ++ ((l.drop cs).take cs ++ l.drop (2 * cs)) := by rw [e3]
    _ = l.take cs ++ l.drop cs := by rw [e2]
    _ = l := e1

theorem chunks_length_eq (l : List String) : (chunks l).length = num_workers := by
  unfold chunks
  rw [List.length_map, List.length_range]

theorem chunks_small_eq (l : List String) (h : l.length < 4) :
    chunks l = [[], [], [], l] := by
  have hcs : l.length / 4 = 0 := Nat.div_eq_of_lt h
  unfold chunks num_workers
  rw [show List.range 4 = [0, 1, 2, 3] from rfl]
  simp [hcs, List.take_length]

theorem workerLoop_no_abort_result (u : Bool) (envOf : String → CodeEnv) :
    ∀ (chunk : List String) (s : SeleniumScraper),
      (workerLoop u envOf s chunk none).1 = .ok (workerRowsFrom u envOf s chunk) := by
  intro chunk
  induction chunk with
  | nil => intro s; rfl
  | cons c rest ih =>
    intro s
    simp only [workerLoop, workerRowsFrom, Option.map_none', ih, Except.map]

theorem workerLoop_no_abort_incs (u : Bool) (envOf : String → CodeEnv) :
    ∀ (chunk : List String) (s : SeleniumScraper),
      (workerLoop u envOf s chunk none).2.1 = chunk.length := by
  intro chunk
  induction chunk with
  | nil => intro s; rfl
  | cons c rest ih =>
    intro s
    simp only [workerLoop, Option.map_none', ih, List.length_cons]

theorem workerRowsFrom_codes (u : Bool) (envOf : String → CodeEnv) :
    ∀ (chunk : List String) (s : SeleniumScraper),
      (workerRowsFrom u envOf s chunk).map Row.oem_code = chunk := by
  intro chunk
  induction chunk with
  | nil => intro s; rfl
  | cons c rest ih =>
    intro s
    simp only [workerRowsFrom, List.map_cons, ih]
    congr 1
    unfold workerRow
    split <;> rfl

theorem workerRowsFrom_ink_isSome (envOf : String → CodeEnv) :
    ∀ (chunk : List String) (s : SeleniumScraper),
      ∀ r ∈ workerRowsFrom true envOf s chunk, r.inkstation.isSome = true := by
  intro chunk
  induction chunk with
  | nil => intro s r hr; simp [workerRowsFrom] at hr
  | cons c rest ih =>
    intro s r hr
    simp only [workerRowsFrom, List.mem_cons] at hr
    rcases hr with hr | hr
    · subst hr; rfl
    · exact ih _ r hr

theorem scrape_solved_no_wait (s : SeleniumScraper) (c : String) (e : LookupEnv)
    (h : s.cloudflare_solved = true) :
    (s.scrape_inkstation c e).challengeWaited = false ∧
    (s.scrape_inkstation c e).scraper.cloudflare_solved = true := by
  unfold SeleniumScraper.scrape_inkstation
  split
  · exact ⟨rfl, h⟩
  · split
    · exact ⟨rfl, h⟩
    · cases e.parsed <;> simp [h]

theorem scrape_waited_solved (s : SeleniumScraper) (c : String) (e : LookupEnv)
    (h : (s.scrape_inkstation c e).challengeWaited = true) :
    (s.scrape_inkstation c e).scraper.cloudflare_solved = true := by
  cases hd : s.driver <;> cases hsf : e.setupFaults <;> cases hnf : e.navFaults <;>
    cases hp : e.parsed <;>
    simp_all [SeleniumScraper.scrape_inkstation]

theorem runLookups_length (reqs : List (String × LookupEnv)) :
    ∀ s : SeleniumScraper, ((runLookups s reqs).2).length = reqs.length := by
  induction reqs with
  | nil => intro s; rfl
  | cons q rest ih =>
    intro s
    obtain ⟨c, e⟩ := q
    simp only [runLookups, List.length_cons, ih]

theorem runLookups_no_wait_of_solved (reqs : List (String × LookupEnv)) :
    ∀ s : SeleniumScraper, s.cloudflare_solved = true →
      ∀ p ∈ (runLookups s reqs).2, p.2 = false := by
  induction reqs with
  | nil => intro s _ p hp; simp [runLookups] at hp
  | cons q rest ih =>
    intro s h p hp
    obtain ⟨c, e⟩ := q
    simp only [runLookups, List.mem_cons] at hp
    rcases hp with hp | hp
    · subst hp
      exact (scrape_solved_no_wait s c e h).1
    · exact ih _ (scrape_solved_no_wait s c e h).2 p hp
/-- Claim C5: on a single `SeleniumScraper` instance, once a lookup has entered
the challenge-wait path (`wait_for_cloudflare`), no later lookup on that
instance enters it again: the `cloudflare_solved` flag set right after the
wait (cleared or timed out) gates all subsequent lookups onto the plain
render-delay path. -/
theorem no_challenge_rewait_after_first (s : SeleniumScraper)
    (reqs : List (String × LookupEnv)) (i j : Nat) (hij : i < j)
    (hj : j < reqs.length)
    (hi : ((runLookups s reqs).2[i]?).map Prod.snd = some true) :
    ((runLookups s reqs).2[j]?).map Prod.snd = some false := by
  induction reqs generalizing s i j with
  | nil => exact absurd hj (by simp)
  | cons q rest ih =>
    obtain ⟨c, e⟩ := q
    simp only [runLookups] at hi ⊢
    cases i with
    | zero =>
      simp only [List.getElem?_cons_zero, Option.map_some'] at hi
      have hw : (s.scrape_inkstation c e).challengeWaited = true := by
        exact Option.some.inj hi
      have hsolved := scrape_waited_solved s c e hw
      obtain ⟨j', rfl⟩ : ∃ j', j = j' + 1 := ⟨j - 1, by omega⟩
      simp only [List.getElem?_cons_succ]
      have hjlen : j' < ((runLookups (s.scrape_inkstation c e).scraper rest).2).length := by
        rw [runLookups_length]
        simpa using hj
      have hsome := List.getElem?_eq_getElem hjlen
      rw [hsome, Option.map_some']
      have hmem : ((runLookups (s.scrape_inkstation c e).scraper rest).2)[j'] ∈
          (runLookups (s.scrape_inkstation c e).scraper rest).2 :=
        List.getElem_mem hjlen
      rw [runLookups_no_wait_of_solved rest _ hsolved _ hmem]
    | succ i' =>
      obtain ⟨j', rfl⟩ : ∃ j', j = j' + 1 := ⟨j - 1, by omega⟩
      simp only [List.getElem?_cons_succ] at hi ⊢
      exact ih _ i' j' (by omega) (by simpa using hj) hi
theorem dedupFirst_nodup_aux (l : List String) :
    ∀ acc : List String, acc.Nodup →
      (l.foldl (fun acc x => if acc.contains x then acc else acc ++ [x]) acc).Nodup := by
  induction l with
  | nil => intro acc h; exact h
  | cons x xs ih =>
    intro acc h
    simp only [List.foldl_cons]
    apply ih
    by_cases hc : x ∈ acc
    · simp [hc, h]
    · simp [hc, List.nodup_append, h]

theorem dedupFirst_nodup (l : List String) : (dedupFirst l).Nodup :=
  dedupFirst_nodup_aux l [] List.nodup_nil

theorem dedupFirst_mem_aux (l : List String) :
    ∀ (acc : List String) (y : String),
      y ∈ l.foldl (fun acc x => if acc.contains x then acc else acc ++ [x]) acc →
      y ∈ acc ∨ y ∈ l := by
  induction l with
  | nil => intro acc y h; exact Or.inl h
  | cons x xs ih =>
    intro acc y h
    simp only [List.foldl_cons] at h
    rcases ih _ y h with h' | h'
    · by_cases hc : acc.contains x
      · rw [if_pos hc] at h'
        exact Or.inl h'
      · rw [if_neg hc] at h'
        rcases List.mem_append.mp h' with h'' | h''
        · exact Or.inl h''
        · simp at h''
          subst h''
          exact Or.inr (List.mem_cons_self _ _)
    · exact Or.inr (List.mem_cons_of_mem _ h')

theorem read_oem_codes_nodup (cells : List (Option String)) :
    (read_oem_codes cells).Nodup :=
  dedupFirst_nodup _

theorem read_oem_codes_from_cells (cells : List (Option String)) (x : String)
    (h : x ∈ read_oem_codes cells) : some x ∈ cells := by
  unfold read_oem_codes dedupFirst at h
  rcases dedupFirst_mem_aux _ _ _ h with h' | h'
  · simp at h'
  · rcases List.mem_filterMap.mp h' with ⟨a, ha, hax⟩
    simp only [id] at hax
    subst hax
    exact ha
theorem list_len4 {α : Type} (L : List α) (h : L.length = 4) :
    ∃ a b c d, L = [a, b, c, d] := by
  cases L with
  | nil => simp at h
  | cons a t0 =>
    cases t0 with
    | nil => simp at h
    | cons b t1 =>
      cases t1 with
      | nil => simp at h
      | cons c t2 =>
        cases t2 with
        | nil => simp at h
        | cons d t3 =>
          cases t3 with
          | nil => exact ⟨a, b, c, d, rfl⟩
          | cons e t4 => simp at h

theorem workerOuts_no_abort (envOf : String → CodeEnv) (codes : List String) :
    workerOuts envOf [] codes =
      (chunks codes).map fun c => worker_process true envOf c none := by
  obtain ⟨c0, c1, c2, c3, hch⟩ := list_len4 (chunks codes) (chunks_length_eq codes)
  unfold workerOuts num_workers
  rw [hch]
  rfl

theorem worker_process_result_no_abort (envOf : String → CodeEnv) (c : List String) :
    (worker_process true envOf c none).result =
      .ok (workerRowsFrom true envOf (SeleniumScraper.mk0 false) c) := by
  unfold worker_process
  simp only [workerLoop_no_abort_result]

theorem any_fault_false (envOf : String → CodeEnv) (codes : List String) :
    (workerOuts envOf [] codes).any (fun w => !(exceptOk w.result)) = false := by
  rw [workerOuts_no_abort, List.any_eq_false]
  intro w hw
  rcases List.mem_map.mp hw with ⟨c, _, rfl⟩
  rw [worker_process_result_no_abort]
  simp [exceptOk]

theorem run_written_ok (codes : List String) (envOf : String → CodeEnv)
    (ef : Option String) :
    (run_scraper_job ⟨.ok codes, envOf, [], none, ef⟩).written =
      some (((chunks codes).map
        (workerRowsFrom true envOf (SeleniumScraper.mk0 false))).flatten) := by
  unfold run_scraper_job
  simp only [any_fault_false, Bool.false_eq_true, if_false]
  have hmap : ((workerOuts envOf [] codes).map fun w => w.result.toOption.getD []) =
      (chunks codes).map (workerRowsFrom true envOf (SeleniumScraper.mk0 false)) := by
    rw [workerOuts_no_abort, List.map_map]
    apply List.map_congr_left
    intro c _
    simp [Function.comp, worker_process_result_no_abort, Except.toOption]
  cases ef <;> simp [hmap]
/-- Claim C2 (amended): the orchestrator writes the merged dataset, then sets
the job status to its completed state and only afterwards invokes the email
delivery step (trace position 5 carries the completed-status mutation, position
7 the email send); any stage fault sets the status to the failed state
("error") with the fault description in the message field.  Consequently the
job IS briefly observable as completed while the delivery stage can still
fail. -/
theorem run_scraper_job_lifecycle (env : RunEnv) :
    ((firstFault env).isSome = true →
       (run_scraper_job env).job.status = "error" ∧
       (run_scraper_job env).job.message = "Error: " ++ (firstFault env).getD "") ∧
    (firstFault env = none →
       (run_scraper_job env).job.status = "completed" ∧
       (run_scraper_job env).written.isSome = true) ∧
    ((run_scraper_job env).written.isSome = true →
       ((run_scraper_job env).trace[5]?).map isCompletedSet = some true ∧
       (run_scraper_job env).trace[7]? = some Ev.sendEmail) := by
  obtain ⟨rr, envOf, aborts, wf, ef⟩ := env
  cases rr with
  | error msg =>
    refine ⟨fun _ => ?_, fun h => ?_, fun h => ?_⟩
    · simp [run_scraper_job, firstFault]
    · simp [firstFault] at h
    · simp [run_scraper_job] at h
  | ok codes =>
    cases hA : (workerOuts envOf aborts codes).any (fun w => !(exceptOk w.result)) with
    | true =>
      refine ⟨fun _ => ?_, fun h => ?_, fun h => ?_⟩
      · simp [run_scraper_job, firstFault, hA]
      · simp [firstFault, hA] at h
      · simp [run_scraper_job, hA] at h
    | false =>
      cases wf with
      | some m =>
        refine ⟨fun _ => ?_, fun h => ?_, fun h => ?_⟩
        · simp [run_scraper_job, firstFault, hA]
        · simp [firstFault, hA] at h
        · simp [run_scraper_job, hA] at h
      | none =>
        cases ef with
        | some m =>
          refine ⟨fun _ => ?_, fun h => ?_, fun h => ?_⟩
          · simp [run_scraper_job, firstFault, hA]
          · simp [firstFault, hA] at h
          · simp [run_scraper_job, hA, isCompletedSet]
        | none =>
          refine ⟨fun h => ?_, fun _ => ?_, fun h => ?_⟩
          · simp [firstFault, hA] at h
          · simp [run_scraper_job, hA]
          · simp [run_scraper_job, hA, isCompletedSet]
/-- Claim C2, as stated, is false: in a run whose email send faults, the job is
observable with status "completed" (trace position 5, immediately after the
output write at position 4) before the email send at position 7, and that
later stage then fails, leaving final status "error".  So the orchestrator
does NOT set Completed only after delivery, and the job IS observable as
Completed while a later stage can still fail. -/
theorem completed_status_precedes_email_failure :
    ((run_scraper_job emailFaultEnv).trace[5]?).map isCompletedSet = some true ∧
    (run_scraper_job emailFaultEnv).trace[7]? = some Ev.sendEmail ∧
    ((run_scraper_job emailFaultEnv).trace.any isCompletedSet) = true ∧
    (run_scraper_job emailFaultEnv).job.status = "error" := by decide

/-- Claim C2 (amended), witness: the lifecycle theorem applied to the concrete
environment whose email send faults. -/
theorem run_scraper_job_lifecycle_witness :
    (run_scraper_job emailFaultEnv).job.status = "error" ∧
    (run_scraper_job emailFaultEnv).job.message = "Error: SMTP connection refused" := by
  have h := (run_scraper_job_lifecycle emailFaultEnv).1 (by decide)
  exact ⟨h.1, by rw [h.2]; decide⟩

/-- Claim C1, as stated, is false: a fully successful run over the single
deduplicated code "A1" with both adapters configured writes 1 output row, not
`1 × num_adapters = 2` rows — the output is one row per code with one price
column per source, not one row per (code, source) pair. -/
theorem output_row_count_counterexample :
    ((run_scraper_job (okRunEnv [some "A1"])).written.getD []).length = 1 ∧
    ¬ (((run_scraper_job (okRunEnv [some "A1"])).written.getD []).length
        = (read_oem_codes [some "A1"]).length * num_adapters) := by decide

/-- Claim C1 (amended): a run in which no stage faults writes exactly one row
per deduplicated code, in input order, and every row carries a cell for each of
the two configured sources (the "Ink Station" cell is present because the job
always enables selenium, the "Hot Tonner" cell is a mandatory field), so no
(code, source) pair is silently dropped even when lookups fail. -/
theorem output_rows_one_per_code (codes : List String) (envOf : String → CodeEnv)
    (ef : Option String) :
    ∃ rows,
      (run_scraper_job ⟨.ok codes, envOf, [], none, ef⟩).written = some rows ∧
      rows.length = codes.length ∧
      rows.map Row.oem_code = codes ∧
      ∀ r ∈ rows, r.inkstation.isSome = true := by
  refine ⟨_, run_written_ok codes envOf ef, ?_, ?_, ?_⟩
  · have hmap : (((chunks codes).map
        (workerRowsFrom true envOf (SeleniumScraper.mk0 false))).flatten.map Row.oem_code)
        = codes := by
      rw [List.map_flatten, List.map_map]
      have h1 : ((chunks codes).map
          (List.map Row.oem_code ∘ workerRowsFrom true envOf (SeleniumScraper.mk0 false)))
          = (chunks codes).map id :=
        List.map_congr_left fun c _ => by simp [Function.comp, workerRowsFrom_codes]
      rw [h1, List.map_id, chunks_flatten_eq]
    calc (((chunks codes).map
        (workerRowsFrom true envOf (SeleniumScraper.mk0 false))).flatten).length
        = (((chunks codes).map
            (workerRowsFrom true envOf (SeleniumScraper.mk0 false))).flatten.map
              Row.oem_code).length := by rw [List.length_map]
      _ = codes.length := by rw [hmap]
  · rw [List.map_flatten, List.map_map]
    have h1 : ((chunks codes).map
        (List.map Row.oem_code ∘ workerRowsFrom true envOf (SeleniumScraper.mk0 false)))
        = (chunks codes).map id :=
      List.map_congr_left fun c _ => by simp [Function.comp, workerRowsFrom_codes]
    rw [h1, List.map_id, chunks_flatten_eq]
  · intro r hr
    rcases List.mem_flatten.mp hr with ⟨rows, hrows, hrmem⟩
    rcases List.mem_map.mp hrows with ⟨c, _, rfl⟩
    exact workerRowsFrom_ink_isSome envOf c _ r hrmem

/-- Claim C1 (amended), witness at the concrete two-code input. -/
theorem output_rows_one_per_code_witness :
    ∃ rows,
      (run_scraper_job ⟨.ok ["A1", "B2"], fun _ => defaultCodeEnv, [], none, none⟩).written
        = some rows ∧
      rows.length = (["A1", "B2"] : List String).length ∧
      rows.map Row.oem_code = ["A1", "B2"] ∧
      ∀ r ∈ rows, r.inkstation.isSome = true :=
  output_rows_one_per_code ["A1", "B2"] (fun _ => defaultCodeEnv) none
/-- Claim C3 (code bug): the spec requires `progress.current` to equal
`progress.total` after the job completes, and the code's own comment says the
worker updates the shared progress counter; but the workers run in a
`multiprocessing.Pool`, so each increments the counter of its process-local
COPY of the `jobs` dict.  Evaluated at the one-code input: the child applied
exactly one increment (one per code, the granularity the claim requires), yet
the parent-visible job record finishes a fully successful run with
`progress.current = 0` while `progress.total = 1`. -/
theorem progress_counter_stuck_at_zero :
    (worker_process true (fun _ => defaultCodeEnv) ["A1"] none).increments = 1 ∧
    (run_scraper_job (okRunEnv [some "A1"])).job.status = "completed" ∧
    (run_scraper_job (okRunEnv [some "A1"])).job.progress.total = 1 ∧
    (run_scraper_job (okRunEnv [some "A1"])).job.progress.current = 0 := by decide

/-- Claim C4: for every code list, the 4 chunks produced by floor-division
sizing with the remainder folded into the last chunk partition the list
exactly (their concatenation in index order is the input list, so no code is
dropped and none is duplicated), and concatenating the workers' row outputs in
chunk-index order yields rows whose OEM-code order reproduces the input
order. -/
theorem chunks_partition_and_order (l : List String) (envOf : String → CodeEnv) :
    (chunks l).length = num_workers ∧
    (chunks l).flatten = l ∧
    (((chunks l).map
        (workerRowsFrom true envOf (SeleniumScraper.mk0 false))).flatten.map
          Row.oem_code) = l := by
  refine ⟨chunks_length_eq l, chunks_flatten_eq l, ?_⟩
  rw [List.map_flatten, List.map_map]
  have h1 : ((chunks l).map
      (List.map Row.oem_code ∘ workerRowsFrom true envOf (SeleniumScraper.mk0 false)))
      = (chunks l).map id :=
    List.map_congr_left fun c _ => by simp [Function.comp, workerRowsFrom_codes]
  rw [h1, List.map_id, chunks_flatten_eq]

/-- Claim C6: a worker dispatched with selenium enabled (as every worker of
this app is) runs the browser release exactly once on its exit path — whatever
the chunk, whatever the per-code environments, and whether the loop completed
normally (`abort = none`) or an unexpected fault aborted it — and the adapter
instance it leaves behind holds no driver. -/
theorem worker_close_exactly_once (envOf : String → CodeEnv)
    (chunk : List String) (abort : Option Nat) :
    (worker_process true envOf chunk abort).closeCalls = 1 ∧
    ∃ s, (worker_process true envOf chunk abort).finalScraper = some s ∧
      s.driver = false := by
  refine ⟨rfl, (workerLoop true envOf (SeleniumScraper.mk0 false) chunk abort).2.2.close, rfl, ?_⟩
  unfold SeleniumScraper.close
  split <;> simp_all

/-- Claim C7: whenever the HotToner lookup hits an unreachable host, a non-200
status, or a parse fault, `scrape_hottoner` still returns a full record — the
status field is the "Not Available" (not-found) or "Error" sentinel, the title
is the matching sentinel, the price is "N/A", and the attempted URL is
preserved; the try/except wrapping the whole body means no exception crosses
the adapter boundary (the embedding is a total function). -/
theorem hottoner_fault_returns_sentinel_record (oem_code : String)
    (out : HttpOutcome) (h : isFaultyOutcome out = true) :
    ((scrape_hottoner oem_code out).status = "Not Available" ∨
      (scrape_hottoner oem_code out).status = "Error") ∧
    ((scrape_hottoner oem_code out).title = "Not Found" ∨
      (scrape_hottoner oem_code out).title = "Error") ∧
    (scrape_hottoner oem_code out).price = "N/A" ∧
    (scrape_hottoner oem_code out).url = hottoner_url oem_code := by
  cases out with
  | unreachable => simp [scrape_hottoner]
  | response statusCode parsed =>
    by_cases hs : statusCode = 200 <;> cases parsed <;>
      simp_all [scrape_hottoner, isFaultyOutcome]

/-- Claim C7, witness: the theorem applied to a concrete 503 response. -/
theorem hottoner_fault_returns_sentinel_record_witness :
    ((scrape_hottoner "X99" (.response 503 .noProductList)).status = "Not Available" ∨
      (scrape_hottoner "X99" (.response 503 .noProductList)).status = "Error") ∧
    ((scrape_hottoner "X99" (.response 503 .noProductList)).title = "Not Found" ∨
      (scrape_hottoner "X99" (.response 503 .noProductList)).title = "Error") ∧
    (scrape_hottoner "X99" (.response 503 .noProductList)).price = "N/A" ∧
    (scrape_hottoner "X99" (.response 503 .noProductList)).url = hottoner_url "X99" :=
  hottoner_fault_returns_sentinel_record "X99" (.response 503 .noProductList) (by decide)
/-- Claim C8: the code list handed to the pipeline has no duplicates (pandas
`unique()` keeps the first occurrence, case preserved) and no empty values
(`dropna()` removes empty cells, so every survivor originates from a non-empty
cell); submitting cells A1, A1, B2 yields the list ["A1", "B2"], and the run
over it fixes `progress.total = 2`. -/
theorem read_oem_codes_dedup_no_empty (cells : List (Option String)) :
    (read_oem_codes cells).Nodup ∧
    (∀ x ∈ read_oem_codes cells, some x ∈ cells) ∧
    read_oem_codes [some "A1", some "A1", some "B2"] = ["A1", "B2"] ∧
    (run_scraper_job (okRunEnv [some "A1", some "A1", some "B2"])).job.progress.total
      = 2 := by
  refine ⟨read_oem_codes_nodup cells, ?_, by decide, by decide⟩
  intro x hx
  exact read_oem_codes_from_cells cells x hx

/-- Claim C8, witness: the membership implication applied at a concrete cell
list. -/
theorem read_oem_codes_dedup_no_empty_witness :
    some "A1" ∈ ([some "A1", none, some "B2"] : List (Option String)) :=
  (read_oem_codes_dedup_no_empty [some "A1", none, some "B2"]).2.1 "A1" (by decide)

/-- Claim C9: a submission that is missing the file part, has a missing (or
empty, hence falsy) email field, an empty filename, or a disallowed file
extension is answered with HTTP 400, and the job registry is returned
unchanged — no job record is created by a rejected request. -/
theorem start_scrape_rejects_without_job (jobs : List (String × Job))
    (req : UploadRequest) (job_id : String)
    (h : req.hasFile = false ∨ req.email.getD "" = "" ∨ req.filename = "" ∨
      allowed_file req.filename = false) :
    (start_scrape jobs req job_id).httpStatus = 400 ∧
    (start_scrape jobs req job_id).jobs = jobs := by
  unfold start_scrape
  rcases h with h | h | h | h <;> split_ifs <;> simp_all

/-- Claim C9, witness: a request with a file but no email field against an
empty registry. -/
theorem start_scrape_rejects_without_job_witness :
    (start_scrape [] ⟨true, none, "codes.xlsx"⟩ "job-1").httpStatus = 400 ∧
    (start_scrape [] ⟨true, none, "codes.xlsx"⟩ "job-1").jobs = [] :=
  start_scrape_rejects_without_job [] ⟨true, none, "codes.xlsx"⟩ "job-1"
    (Or.inr (Or.inl (by decide)))

/-- Claim C10: when the deduplicated list is shorter than the worker count 4,
the floor-division chunk size is 0, so the first three chunks are empty and
the last chunk carries the whole list; the chunks still partition the list
exactly, so every code is handed to exactly one worker. -/
theorem chunks_short_list_last_chunk (l : List String) (h : l.length < 4) :
    chunks l = [[], [], [], l] ∧ (chunks l).flatten = l :=
  ⟨chunks_small_eq l h, chunks_flatten_eq l⟩

/-- Claim C10, witness: the two-code list. -/
theorem chunks_short_list_last_chunk_witness :
    chunks ["A1", "B2"] = [[], [], [], ["A1", "B2"]] ∧
    (chunks ["A1", "B2"]).flatten = ["A1", "B2"] :=
  chunks_short_list_last_chunk ["A1", "B2"] (by decide)

/-- Claim C5, witness: on a fresh instance, two normal lookups — the first
enters the challenge wait, the second does not. -/
theorem no_challenge_rewait_after_first_witness :
    ((runLookups (SeleniumScraper.mk0 false)
        [("A1", ⟨false, false, .notFound⟩), ("B2", ⟨false, false, .notFound⟩)]).2[1]?).map
      Prod.snd = some false :=
  no_challenge_rewait_after_first (SeleniumScraper.mk0 false)
    [("A1", ⟨false, false, .notFound⟩), ("B2", ⟨false, false, .notFound⟩)]
    0 1 (by decide) (by decide) (by decide)

end ScraperBackend
